import Mathlib

/-!
Verification of the HTTP client / error-normalization layer of the
megabase-nextjs repository (`src/lib/axios.ts`, with `isDevelopment` from
`src/config/api.ts`).

The layer is untyped JavaScript at runtime, so we shallowly embed the
relevant fragment of JavaScript values: `JSValue` covers `undefined`,
`null`, booleans, (integer) numbers, strings and plain objects.  Objects
are association lists of string keys; property access on a missing key or
on a primitive yields `undefined`, exactly as in JavaScript (every access
in the embedded code is either guarded or uses optional chaining, so the
throwing cases of property access on `null`/`undefined` are modelled by
the optional-chain combinator where the source uses it).

The interceptor handlers from `src/lib/axios.ts` are translated function
by function:
- `requestInterceptorFulfilled` — the request interceptor success handler
  (line 18): it assigns `config.metadata = { startTime: Date.now() }`,
  replacing any previous metadata object.  Debug logging has no effect on
  the returned config and is omitted.
- `requestInterceptorRejected` — the request interceptor error handler
  (line 39): it logs and returns `Promise.reject(error)` with the error
  untouched, i.e. the identity on the rejected value.
- `computeDuration` — the `duration` computation shared by both response
  handlers (lines 57 and 87): `config.metadata ? Date.now() -
  config.metadata.startTime : 0`.  The absent-config and absent-metadata
  cases both map to `none`-metadata here.  When `metadata.startTime` is
  not a number JavaScript would produce `NaN`; we return `none` for that
  case, which is unreachable for any config stamped by the request
  interceptor (its `startTime` is always a number).
- `mergeMetrics` / `successHandlerMetadata` — the development-build
  metrics merge of the response success handler (lines 69-80):
  `const { startTime, ...otherMetadata } = config.metadata;
   response.config.metadata = { startTime, duration, ...otherMetadata }`.
  Object-literal semantics (later entries overwrite earlier keys) are
  modelled by `objUpdate` folded over the literal's entries in order.
- `responseFailureHandler` — the response interceptor failure handler
  (lines 84-160).  Its observable outcome is the rejected value together
  with the list of global events dispatched (`window.dispatchEvent(new
  CustomEvent('auth:logout'))` fires only in the 401 case and only when a
  browser `window` exists, modelled by the `windowExists` flag).
  Console logging is omitted: it never affects the rejected value.
- `isApiError`, `isNetworkError`, `getErrorMessage` — the exported error
  introspection helpers (lines 198-226).  `getErrorMessage` returns the
  value of `error.message` unchanged when one of the predicates holds, so
  its codomain is `JSValue`; every fallback it produces is a string.
-/

/-- Untyped JavaScript values, restricted to the fragment this layer
manipulates: `undefined`, `null`, booleans, integer numbers, strings and
plain objects (association lists of string-keyed fields). -/
inductive JSValue : Type where
  | undefined : JSValue
  | null : JSValue
  | bool : Bool → JSValue
  | num : Int → JSValue
  | str : String → JSValue
  | obj : List (String × JSValue) → JSValue

/-- First-match lookup in an object's field list; a missing key reads as
`undefined`, as JavaScript property access does. -/
def jsLookup : List (String × JSValue) → String → JSValue
  | [], _ => JSValue.undefined
  | p :: rest, k => if p.1 = k then p.2 else jsLookup rest k

/-- Whether an object's field list carries a given key. -/
def hasKey : List (String × JSValue) → String → Bool
  | [], _ => false
  | p :: rest, k => p.1 = k || hasKey rest k

/-- JavaScript property access `v.k`: field lookup on objects, `undefined`
on primitives (which have none of the properties this code reads). -/
def JSValue.get : JSValue → String → JSValue
  | JSValue.obj fields, k => jsLookup fields k
  | _, _ => JSValue.undefined

/-- Optional chaining `v?.k`: `undefined` when `v` is nullish, otherwise
property access. -/
def optChainGet (v : JSValue) (k : String) : JSValue :=
  match v with
  | JSValue.undefined => JSValue.undefined
  | JSValue.null => JSValue.undefined
  | w => JSValue.get w k

/-- JavaScript truthiness of a value: `undefined`, `null`, `false`, `0`
and the empty string are falsy, everything else is truthy. -/
def truthy : JSValue → Bool
  | JSValue.undefined => false
  | JSValue.null => false
  | JSValue.bool b => b
  | JSValue.num n => n ≠ 0
  | JSValue.str s => s ≠ ""
  | JSValue.obj _ => true

/-- JavaScript string coercion `String(v)`, used by template literals and
the `Error` constructor. -/
def jsToString : JSValue → String
  | JSValue.undefined => "undefined"
  | JSValue.null => "null"
  | JSValue.bool b => if b then "true" else "false"
  | JSValue.num n => toString n
  | JSValue.str s => s
  | JSValue.obj _ => "[object Object]"

/-- Strict equality `v === 401`, the match performed by `switch (status)`
at `case 401`: true exactly for the number 401. -/
def is401 : JSValue → Bool
  | JSValue.num n => n = 401
  | _ => false

/-- One property assignment of an object literal: overwrite the existing
entry for the key in place, or append the key when it is new.  Folding
this over a literal's entries in order gives JavaScript's later-wins
semantics for duplicate keys. -/
def objUpdate : List (String × JSValue) → String → JSValue → List (String × JSValue)
  | [], k, v => [(k, v)]
  | p :: rest, k, v => if p.1 = k then (k, v) :: rest else p :: objUpdate rest k v

/-- Evaluate an object literal given its entries in source order. -/
def objLit (entries : List (String × JSValue)) : List (String × JSValue) :=
  entries.foldl (fun b p => objUpdate b p.1 p.2) []

/-- Lookup through an optional metadata record; `none` (no metadata, or no
config at all) reads as `undefined`. -/
def optLookup (md : Option (List (String × JSValue))) (k : String) : JSValue :=
  match md with
  | some m => jsLookup m k
  | none => JSValue.undefined

/-- The slice of an axios request config that the interceptors observe:
its optional `metadata` record. -/
structure RequestConfig : Type where
  metadata : Option (List (String × JSValue))

/-- Request interceptor, success handler (axios.ts line 18): stamps
`config.metadata = { startTime: Date.now() }`, replacing any metadata the
config carried before dispatch; `now` is the `Date.now()` reading. -/
def requestInterceptorFulfilled (config : RequestConfig) (now : Int) : RequestConfig :=
  { config with metadata := some [("startTime", JSValue.num now)] }

/-- Request interceptor, error handler (axios.ts line 39): logs when debug
logging is enabled and returns `Promise.reject(error)` — the rejected
value is the original error, untouched. -/
def requestInterceptorRejected (error : JSValue) : JSValue :=
  error

/-- Duration computation shared by both response handlers (axios.ts lines
57 and 87): `config.metadata ? Date.now() - config.metadata.startTime : 0`.
Returns `none` when `startTime` is not a number (JavaScript `NaN`),
which cannot happen for a config stamped by the request interceptor. -/
def computeDuration (metadata : Option (List (String × JSValue))) (now : Int) : Option Int :=
  match metadata with
  | none => some 0
  | some md =>
    match jsLookup md "startTime" with
    | JSValue.num st => some (now - st)
    | _ => none

/-- The metrics merge of the response success handler (axios.ts lines
72-79): destructure `{ startTime, ...otherMetadata } = config.metadata`
and rebuild `{ startTime, duration, ...otherMetadata }`. -/
def mergeMetrics (md : List (String × JSValue)) (dur : JSValue) : List (String × JSValue) :=
  objLit (("startTime", jsLookup md "startTime") ::
          ("duration", dur) ::
          md.filter (fun p => p.1 ≠ "startTime"))

/-- Effect of the response success handler (axios.ts lines 54-83) on the
config's metadata: in a development build (`isDevelopment()` true) with
metadata present, the metrics merge replaces it; otherwise it is left
untouched.  The merged `duration` value is the number computed by
`computeDuration` (the `JSValue.undefined` fallback stands for the `NaN`
of a non-numeric `startTime`, unreachable after stamping). -/
def successHandlerMetadata (metadata : Option (List (String × JSValue)))
    (now : Int) (isDev : Bool) : Option (List (String × JSValue)) :=
  match metadata with
  | none => none
  | some md =>
    if isDev then
      let dur : JSValue :=
        match computeDuration (some md) now with
        | some d => JSValue.num d
        | none => JSValue.undefined
      some (mergeMetrics md dur)
    else some md

/-- The fixed connectivity message of the network-error branch
(axios.ts line 152). -/
def networkErrorMessage : String :=
  "Error de conexión. Verifique su conexión a internet."

/-- The fixed fallback string of `getErrorMessage` (axios.ts line 225). -/
def fallbackErrorMessage : String :=
  "Ha ocurrido un error inesperado"

/-- Response interceptor, failure handler (axios.ts lines 84-160).
Returns the rejected value together with the list of global browser
events dispatched while handling the failure.  Branches, first match
wins, as in the source:
1. `error.response` truthy — build
   `new Error(data?.message || "HTTP Error " + status)` with `status`,
   `data` and `isApiError = true` attached; inside the status `switch`,
   `case 401` dispatches the `auth:logout` custom event when a browser
   `window` exists (`windowExists`); every other case only logs.
2. otherwise `error.request` truthy — build the fixed-message network
   error with `isNetworkError = true`.
3. otherwise — reject the original error unchanged. -/
def responseFailureHandler (error : JSValue) (windowExists : Bool) :
    JSValue × List String :=
  let response := JSValue.get error "response"
  if truthy response then
    let status := JSValue.get response "status"
    let data := JSValue.get response "data"
    let events := if is401 status && windowExists then ["auth:logout"] else []
    let rawMessage := optChainGet data "message"
    let message : String :=
      if truthy rawMessage then jsToString rawMessage
      else "HTTP Error " ++ jsToString status
    let apiError := JSValue.obj
      [("message", JSValue.str message),
       ("status", status),
       ("data", data),
       ("isApiError", JSValue.bool true)]
    (apiError, events)
  else if truthy (JSValue.get error "request") then
    let networkError := JSValue.obj
      [("message", JSValue.str networkErrorMessage),
       ("isNetworkError", JSValue.bool true)]
    (networkError, [])
  else
    (error, [])

/-- Exported helper `isApiError` (axios.ts line 198):
`error?.isApiError === true`. -/
def isApiError (error : JSValue) : Bool :=
  match optChainGet error "isApiError" with
  | JSValue.bool true => true
  | _ => false

/-- Exported helper `isNetworkError` (axios.ts line 205):
`error?.isNetworkError === true`. -/
def isNetworkError (error : JSValue) : Bool :=
  match optChainGet error "isNetworkError" with
  | JSValue.bool true => true
  | _ => false

/-- Exported helper `getErrorMessage` (axios.ts line 212): priority order
over the classified message, the nested `error?.response?.data?.message`,
the generic `error?.message`, then the fixed fallback string. -/
def getErrorMessage (error : JSValue) : JSValue :=
  if isApiError error || isNetworkError error then
    JSValue.get error "message"
  else
    let nested := optChainGet (optChainGet (optChainGet error "response") "data") "message"
    if truthy nested then nested
    else
      let generic := optChainGet error "message"
      if truthy generic then generic
      else JSValue.str fallbackErrorMessage

/-! ### Helper lemmas about object-literal evaluation -/

/-- Lookup after one object-literal assignment: the assigned key reads the
new value, every other key is unchanged. -/
theorem jsLookup_objUpdate (b : List (String × JSValue)) (k k' : String) (v : JSValue) :
    jsLookup (objUpdate b k v) k' = if k = k' then v else jsLookup b k' := by
  induction b with
  | nil => by_cases h : k = k' <;> simp [objUpdate, jsLookup, h]
  | cons p rest ih =>
    by_cases h : p.1 = k <;> by_cases h2 : k = k' <;>
      simp_all [objUpdate, jsLookup]

/-- Folding assignments whose keys avoid `k` does not change what `k`
reads. -/
theorem jsLookup_foldl_of_not_hasKey (l base : List (String × JSValue))
    (k : String) (h : hasKey l k = false) :
    jsLookup (l.foldl (fun b p => objUpdate b p.1 p.2) base) k = jsLookup base k := by
  induction l generalizing base with
  | nil => rfl
  | cons p rest ih =>
    simp only [hasKey, Bool.or_eq_false_iff, decide_eq_false_iff_not] at h
    rw [List.foldl_cons, ih _ h.2, jsLookup_objUpdate, if_neg h.1]

/-- `hasKey` is membership of the key among the field names. -/
theorem hasKey_eq_false_iff (l : List (String × JSValue)) (k : String) :
    hasKey l k = false ↔ k ∉ l.map Prod.fst := by
  induction l with
  | nil => simp [hasKey]
  | cons p rest ih =>
    simp only [hasKey, Bool.or_eq_false_iff, decide_eq_false_iff_not, ih,
      List.map_cons, List.mem_cons, not_or]
    constructor
    · rintro ⟨h1, h2⟩
      exact ⟨fun he => h1 he.symm, h2⟩
    · rintro ⟨h1, h2⟩
      exact ⟨fun he => h1 he.symm, h2⟩

/-- With duplicate-free field names, folding a list of assignments that
contains the entry `(k, v)` makes `k` read `v`. -/
theorem jsLookup_foldl_of_mem (l base : List (String × JSValue))
    (k : String) (v : JSValue) (hnd : (l.map Prod.fst).Nodup)
    (hmem : (k, v) ∈ l) :
    jsLookup (l.foldl (fun b p => objUpdate b p.1 p.2) base) k = v := by
  induction l generalizing base with
  | nil => cases hmem
  | cons p rest ih =>
    obtain ⟨a, w⟩ := p
    rw [List.map_cons, List.nodup_cons] at hnd
    rw [List.foldl_cons]
    rcases List.mem_cons.mp hmem with heq | hmem2
    · injection heq with hk hv
      subst hk
      subst hv
      have hnokey : hasKey rest k = false :=
        (hasKey_eq_false_iff rest k).mpr hnd.1
      rw [jsLookup_foldl_of_not_hasKey _ _ _ hnokey, jsLookup_objUpdate, if_pos rfl]
    · exact ih _ hnd.2 hmem2

/-- Filtering out a key leaves a list without that key. -/
theorem hasKey_filter_self (l : List (String × JSValue)) (a : String) :
    hasKey (l.filter (fun p => p.1 ≠ a)) a = false := by
  induction l with
  | nil => rfl
  | cons p rest ih =>
    by_cases h : p.1 = a <;> simp_all [List.filter, hasKey]

/-- Filtering preserves the absence of a key. -/
theorem hasKey_filter_of_not (l : List (String × JSValue)) (q : String × JSValue → Bool)
    (k : String) (h : hasKey l k = false) :
    hasKey (l.filter q) k = false := by
  induction l with
  | nil => rfl
  | cons p rest ih =>
    simp only [hasKey, Bool.or_eq_false_iff, decide_eq_false_iff_not] at h
    by_cases hq : q p <;> simp_all [List.filter, hasKey]

/-- The status comparison of the 401 case is strict equality with the
number 401. -/
theorem is401_iff (v : JSValue) : is401 v = true ↔ v = JSValue.num 401 := by
  cases v <;> simp [is401]

/-! ### Branch-unfolding lemmas for the response failure handler -/

set_option maxRecDepth 4000 in
/-- Outcome of the failure handler when a server response exists
(first branch of axios.ts lines 101-148). -/
theorem responseFailureHandler_api (error : JSValue) (w : Bool)
    (h : truthy (JSValue.get error "response") = true) :
    responseFailureHandler error w =
      (JSValue.obj
        [("message", JSValue.str
            (if truthy (optChainGet (JSValue.get (JSValue.get error "response") "data") "message")
             then jsToString (optChainGet (JSValue.get (JSValue.get error "response") "data") "message")
             else "HTTP Error " ++ jsToString (JSValue.get (JSValue.get error "response") "status"))),
         ("status", JSValue.get (JSValue.get error "response") "status"),
         ("data", JSValue.get (JSValue.get error "response") "data"),
         ("isApiError", JSValue.bool true)],
       if is401 (JSValue.get (JSValue.get error "response") "status") && w
       then ["auth:logout"] else []) := by
  simp only [responseFailureHandler]
  rw [if_pos h]

/-- Outcome of the failure handler when no response exists but a request
was dispatched (second branch, axios.ts lines 149-154). -/
theorem responseFailureHandler_network (error : JSValue) (w : Bool)
    (hresp : truthy (JSValue.get error "response") = false)
    (hreq : truthy (JSValue.get error "request") = true) :
    responseFailureHandler error w =
      (JSValue.obj
        [("message", JSValue.str networkErrorMessage),
         ("isNetworkError", JSValue.bool true)], []) := by
  simp [responseFailureHandler, hresp, hreq]

/-- Outcome of the failure handler when neither response nor request
exists (third branch, axios.ts lines 155-159): the original error. -/
theorem responseFailureHandler_passthrough (error : JSValue) (w : Bool)
    (hresp : truthy (JSValue.get error "response") = false)
    (hreq : truthy (JSValue.get error "request") = false) :
    responseFailureHandler error w = (error, []) := by
  simp [responseFailureHandler, hresp, hreq]

/-- The predicate `isApiError` holds exactly on values whose `isApiError`
field is the boolean `true`. -/
theorem isApiError_iff (e : JSValue) :
    isApiError e = true ↔ optChainGet e "isApiError" = JSValue.bool true := by
  unfold isApiError
  cases hv : optChainGet e "isApiError" with
  | undefined => simp
  | null => simp
  | bool b => cases b <;> simp
  | num n => simp
  | str s => simp
  | obj fields => simp

/-- The predicate `isNetworkError` holds exactly on values whose
`isNetworkError` field is the boolean `true`. -/
theorem isNetworkError_iff (e : JSValue) :
    isNetworkError e = true ↔ optChainGet e "isNetworkError" = JSValue.bool true := by
  unfold isNetworkError
  cases hv : optChainGet e "isNetworkError" with
  | undefined => simp
  | null => simp
  | bool b => cases b <;> simp
  | num n => simp
  | str s => simp
  | obj fields => simp

/-! ### Claim theorems -/

/-- Claim C1: for every failure in which the server responded (a response
object exists), the failure handler rejects an error whose `isApiError`
field is exactly `true`, whose `isNetworkError` field is absent (it reads
as `undefined`, hence falsy), whose `status` field equals the HTTP status
of the response, and whose `data` field is the response body. -/
theorem C1_api_error_shape (error : JSValue) (w : Bool)
    (h : truthy (JSValue.get error "response") = true) :
    JSValue.get (responseFailureHandler error w).1 "isApiError" = JSValue.bool true ∧
    JSValue.get (responseFailureHandler error w).1 "isNetworkError" = JSValue.undefined ∧
    JSValue.get (responseFailureHandler error w).1 "status" =
      JSValue.get (JSValue.get error "response") "status" ∧
    JSValue.get (responseFailureHandler error w).1 "data" =
      JSValue.get (JSValue.get error "response") "data" := by
  rw [responseFailureHandler_api error w h]
  exact ⟨rfl, rfl, rfl, rfl⟩

/-- Witness for C1 at a concrete 500 failure carrying a body. -/
theorem C1_api_error_shape_witness :
    truthy (JSValue.get (JSValue.obj [("response", JSValue.obj
      [("status", JSValue.num 500), ("data", JSValue.str "body")])]) "response") = true ∧
    (JSValue.get (responseFailureHandler (JSValue.obj [("response", JSValue.obj
        [("status", JSValue.num 500), ("data", JSValue.str "body")])]) false).1 "isApiError" =
      JSValue.bool true ∧
     JSValue.get (responseFailureHandler (JSValue.obj [("response", JSValue.obj
        [("status", JSValue.num 500), ("data", JSValue.str "body")])]) false).1 "isNetworkError" =
      JSValue.undefined ∧
     JSValue.get (responseFailureHandler (JSValue.obj [("response", JSValue.obj
        [("status", JSValue.num 500), ("data", JSValue.str "body")])]) false).1 "status" =
      JSValue.get (JSValue.get (JSValue.obj [("response", JSValue.obj
        [("status", JSValue.num 500), ("data", JSValue.str "body")])]) "response") "status" ∧
     JSValue.get (responseFailureHandler (JSValue.obj [("response", JSValue.obj
        [("status", JSValue.num 500), ("data", JSValue.str "body")])]) false).1 "data" =
      JSValue.get (JSValue.get (JSValue.obj [("response", JSValue.obj
        [("status", JSValue.num 500), ("data", JSValue.str "body")])]) "response") "data") :=
  ⟨rfl, C1_api_error_shape _ false rfl⟩

/-- Claim C2: for every failure with a server response, the handler
dispatches the global auth:logout event exactly once if and only if the
response status is (strictly) the number 401 and a browser window
exists; any other status dispatches nothing; without a window the
dispatch is skipped entirely while the rejected error is unchanged. -/
theorem C2_logout_dispatch (error : JSValue) (w : Bool)
    (h : truthy (JSValue.get error "response") = true) :
    ((responseFailureHandler error w).2 = ["auth:logout"] ↔
      (JSValue.get (JSValue.get error "response") "status" = JSValue.num 401 ∧ w = true)) ∧
    (responseFailureHandler error w).2.length ≤ 1 ∧
    (responseFailureHandler error false).1 = (responseFailureHandler error w).1 := by
  have hiff := is401_iff (JSValue.get (JSValue.get error "response") "status")
  rw [responseFailureHandler_api error w h, responseFailureHandler_api error false h]
  cases hs : is401 (JSValue.get (JSValue.get error "response") "status") <;>
    rw [hs] at hiff <;> cases w <;> simp_all

/-- Witness for C2 at a concrete 401 failure with a browser window. -/
theorem C2_logout_dispatch_witness :
    truthy (JSValue.get (JSValue.obj [("response", JSValue.obj
      [("status", JSValue.num 401)])]) "response") = true ∧
    (((responseFailureHandler (JSValue.obj [("response", JSValue.obj
        [("status", JSValue.num 401)])]) true).2 = ["auth:logout"] ↔
      (JSValue.get (JSValue.get (JSValue.obj [("response", JSValue.obj
        [("status", JSValue.num 401)])]) "response") "status" = JSValue.num 401 ∧
       true = true)) ∧
     (responseFailureHandler (JSValue.obj [("response", JSValue.obj
        [("status", JSValue.num 401)])]) true).2.length ≤ 1 ∧
     (responseFailureHandler (JSValue.obj [("response", JSValue.obj
        [("status", JSValue.num 401)])]) false).1 =
       (responseFailureHandler (JSValue.obj [("response", JSValue.obj
        [("status", JSValue.num 401)])]) true).1) :=
  ⟨rfl, C2_logout_dispatch _ true rfl⟩

/-- Claim C4 as stated is false on the code: the message fallback uses
JavaScript `||`, not `??`.  With response body `{ message: "" }` — the
`message` field present and equal to the empty string — and status 404,
the rejected error's message is "HTTP Error 404", not the body's
message "". -/
theorem C4_counterexample :
    JSValue.get (JSValue.get (JSValue.get (JSValue.obj
      [("response", JSValue.obj
        [("status", JSValue.num 404),
         ("data", JSValue.obj [("message", JSValue.str "")])])]) "response") "data") "message" =
      JSValue.str "" ∧
    JSValue.get (responseFailureHandler (JSValue.obj
      [("response", JSValue.obj
        [("status", JSValue.num 404),
         ("data", JSValue.obj [("message", JSValue.str "")])])]) true).1 "message" =
      JSValue.str "HTTP Error 404" ∧
    JSValue.str "HTTP Error 404" ≠ JSValue.str "" :=
  ⟨rfl, rfl, by intro hcon; simp at hcon⟩

/-- Claim C4 amended: for every failure with a server response, the
rejected error's message equals the body's `message` field when that
field is truthy (in particular a non-empty string), and equals
"HTTP Error {status}" when the field is falsy — absent, null, undefined,
or the empty string (JavaScript `||` semantics, axios.ts line 143). -/
theorem C4_message_fallback (error : JSValue) (w : Bool)
    (h : truthy (JSValue.get error "response") = true) :
    JSValue.get (responseFailureHandler error w).1 "message" =
      (if truthy (optChainGet (JSValue.get (JSValue.get error "response") "data") "message") = true
       then JSValue.str (jsToString
         (optChainGet (JSValue.get (JSValue.get error "response") "data") "message"))
       else JSValue.str ("HTTP Error " ++
         jsToString (JSValue.get (JSValue.get error "response") "status"))) := by
  rw [responseFailureHandler_api error w h]
  rw [show ∀ a : String, JSValue.get (JSValue.obj
    [("message", JSValue.str a), ("status", JSValue.get (JSValue.get error "response") "status"),
     ("data", JSValue.get (JSValue.get error "response") "data"),
     ("isApiError", JSValue.bool true)]) "message" = JSValue.str a from fun a => rfl]
  rw [apply_ite JSValue.str]

/-- Witness for the amended C4 at a failure whose body message is the
non-empty string "boom". -/
theorem C4_message_fallback_witness :
    truthy (JSValue.get (JSValue.obj [("response", JSValue.obj
      [("status", JSValue.num 500),
       ("data", JSValue.obj [("message", JSValue.str "boom")])])]) "response") = true ∧
    JSValue.get (responseFailureHandler (JSValue.obj [("response", JSValue.obj
      [("status", JSValue.num 500),
       ("data", JSValue.obj [("message", JSValue.str "boom")])])]) true).1 "message" =
      (if truthy (optChainGet (JSValue.get (JSValue.get (JSValue.obj [("response", JSValue.obj
          [("status", JSValue.num 500),
           ("data", JSValue.obj [("message", JSValue.str "boom")])])]) "response") "data")
          "message") = true
       then JSValue.str (jsToString (optChainGet (JSValue.get (JSValue.get (JSValue.obj
          [("response", JSValue.obj
            [("status", JSValue.num 500),
             ("data", JSValue.obj [("message", JSValue.str "boom")])])]) "response") "data")
          "message"))
       else JSValue.str ("HTTP Error " ++ jsToString (JSValue.get (JSValue.get (JSValue.obj
          [("response", JSValue.obj
            [("status", JSValue.num 500),
             ("data", JSValue.obj [("message", JSValue.str "boom")])])]) "response") "status"))) :=
  ⟨rfl, C4_message_fallback _ true rfl⟩

/-- Claim C5: for every failure where a request exists but no response
does (network failure or timeout), the rejected error has
`isNetworkError` exactly `true`, `isApiError` absent (reads as
`undefined`, hence falsy), the fixed connectivity message, and carries
no `status` and no `data` field. -/
theorem C5_network_error_shape (error : JSValue) (w : Bool)
    (hresp : truthy (JSValue.get error "response") = false)
    (hreq : truthy (JSValue.get error "request") = true) :
    JSValue.get (responseFailureHandler error w).1 "isNetworkError" = JSValue.bool true ∧
    JSValue.get (responseFailureHandler error w).1 "isApiError" = JSValue.undefined ∧
    JSValue.get (responseFailureHandler error w).1 "message" = JSValue.str networkErrorMessage ∧
    JSValue.get (responseFailureHandler error w).1 "status" = JSValue.undefined ∧
    JSValue.get (responseFailureHandler error w).1 "data" = JSValue.undefined := by
  rw [responseFailureHandler_network error w hresp hreq]
  exact ⟨rfl, rfl, rfl, rfl, rfl⟩

/-- Witness for C5 at a concrete request-only failure. -/
theorem C5_network_error_shape_witness :
    truthy (JSValue.get (JSValue.obj [("request", JSValue.obj [])]) "response") = false ∧
    truthy (JSValue.get (JSValue.obj [("request", JSValue.obj [])]) "request") = true ∧
    (JSValue.get (responseFailureHandler (JSValue.obj [("request", JSValue.obj [])]) true).1
        "isNetworkError" = JSValue.bool true ∧
     JSValue.get (responseFailureHandler (JSValue.obj [("request", JSValue.obj [])]) true).1
        "isApiError" = JSValue.undefined ∧
     JSValue.get (responseFailureHandler (JSValue.obj [("request", JSValue.obj [])]) true).1
        "message" = JSValue.str networkErrorMessage ∧
     JSValue.get (responseFailureHandler (JSValue.obj [("request", JSValue.obj [])]) true).1
        "status" = JSValue.undefined ∧
     JSValue.get (responseFailureHandler (JSValue.obj [("request", JSValue.obj [])]) true).1
        "data" = JSValue.undefined) :=
  ⟨rfl, rfl, C5_network_error_shape _ true rfl rfl⟩

/-- Claim C6: for every failure where neither a response nor a request
object exists (a configuration error before dispatch), the failure
handler rejects the original error value itself, unwrapped; likewise the
request interceptor's error handler propagates its error unchanged. -/
theorem C6_config_error_passthrough (error : JSValue) (w : Bool)
    (hresp : truthy (JSValue.get error "response") = false)
    (hreq : truthy (JSValue.get error "request") = false) :
    (responseFailureHandler error w).1 = error ∧
    requestInterceptorRejected error = error :=
  ⟨by rw [responseFailureHandler_passthrough error w hresp hreq], rfl⟩

/-- Witness for C6 at a concrete config-time error object. -/
theorem C6_config_error_passthrough_witness :
    truthy (JSValue.get (JSValue.obj [("message", JSValue.str "bad config")]) "response") =
      false ∧
    truthy (JSValue.get (JSValue.obj [("message", JSValue.str "bad config")]) "request") =
      false ∧
    ((responseFailureHandler (JSValue.obj [("message", JSValue.str "bad config")]) true).1 =
      JSValue.obj [("message", JSValue.str "bad config")] ∧
     requestInterceptorRejected (JSValue.obj [("message", JSValue.str "bad config")]) =
      JSValue.obj [("message", JSValue.str "bad config")]) :=
  ⟨rfl, rfl, C6_config_error_passthrough _ true rfl rfl⟩

/-- Claim C7: for every error rejected by the failure handler, at most
one of `isApiError` / `isNetworkError` is truthy, and an output with both
falsy arises only from the configuration-error branch (neither response
nor request present), where the original error is passed through.  The
hypothesis records that the incoming value is a genuine transport error,
which never carries both discriminators itself: the handler wraps
branches one and two, and only the pass-through branch can echo fields of
its input. -/
theorem C7_flag_exclusivity (error : JSValue) (w : Bool)
    (h : ¬(truthy (JSValue.get error "isApiError") = true ∧
           truthy (JSValue.get error "isNetworkError") = true)) :
    ¬(truthy (JSValue.get (responseFailureHandler error w).1 "isApiError") = true ∧
      truthy (JSValue.get (responseFailureHandler error w).1 "isNetworkError") = true) ∧
    ((truthy (JSValue.get (responseFailureHandler error w).1 "isApiError") = false ∧
      truthy (JSValue.get (responseFailureHandler error w).1 "isNetworkError") = false) →
      (truthy (JSValue.get error "response") = false ∧
       truthy (JSValue.get error "request") = false ∧
       (responseFailureHandler error w).1 = error)) := by
  by_cases hresp : truthy (JSValue.get error "response") = true
  · rw [responseFailureHandler_api error w hresp]
    constructor
    · rintro ⟨-, h2⟩
      simp [JSValue.get, jsLookup, truthy] at h2
    · rintro ⟨h1, -⟩
      simp [JSValue.get, jsLookup, truthy] at h1
  · have hresp2 : truthy (JSValue.get error "response") = false :=
      Bool.eq_false_iff.mpr hresp
    by_cases hreq : truthy (JSValue.get error "request") = true
    · rw [responseFailureHandler_network error w hresp2 hreq]
      constructor
      · rintro ⟨h1, -⟩
        simp [JSValue.get, jsLookup, truthy] at h1
      · rintro ⟨-, h2⟩
        simp [JSValue.get, jsLookup, truthy] at h2
    · have hreq2 : truthy (JSValue.get error "request") = false :=
        Bool.eq_false_iff.mpr hreq
      rw [responseFailureHandler_passthrough error w hresp2 hreq2]
      exact ⟨h, fun _ => ⟨hresp2, hreq2, rfl⟩⟩

/-- Witness for C7 at a concrete 403 failure. -/
theorem C7_flag_exclusivity_witness :
    ¬(truthy (JSValue.get (JSValue.obj [("response", JSValue.obj
        [("status", JSValue.num 403)])]) "isApiError") = true ∧
      truthy (JSValue.get (JSValue.obj [("response", JSValue.obj
        [("status", JSValue.num 403)])]) "isNetworkError") = true) ∧
    (¬(truthy (JSValue.get (responseFailureHandler (JSValue.obj [("response", JSValue.obj
         [("status", JSValue.num 403)])]) true).1 "isApiError") = true ∧
       truthy (JSValue.get (responseFailureHandler (JSValue.obj [("response", JSValue.obj
         [("status", JSValue.num 403)])]) true).1 "isNetworkError") = true) ∧
     ((truthy (JSValue.get (responseFailureHandler (JSValue.obj [("response", JSValue.obj
         [("status", JSValue.num 403)])]) true).1 "isApiError") = false ∧
       truthy (JSValue.get (responseFailureHandler (JSValue.obj [("response", JSValue.obj
         [("status", JSValue.num 403)])]) true).1 "isNetworkError") = false) →
       (truthy (JSValue.get (JSValue.obj [("response", JSValue.obj
          [("status", JSValue.num 403)])]) "response") = false ∧
        truthy (JSValue.get (JSValue.obj [("response", JSValue.obj
          [("status", JSValue.num 403)])]) "request") = false ∧
        (responseFailureHandler (JSValue.obj [("response", JSValue.obj
          [("status", JSValue.num 403)])]) true).1 =
          JSValue.obj [("response", JSValue.obj [("status", JSValue.num 403)])]))) :=
  ⟨fun hcon => Bool.noConfusion hcon.1,
   C7_flag_exclusivity _ true (fun hcon => Bool.noConfusion hcon.1)⟩

/-- Claim C3 as stated is false on the code: the request interceptor
replaces `config.metadata` wholesale with `{ startTime: Date.now() }`
(axios.ts line 35), so a custom metadata field present on the config when
the request is dispatched through the client is already gone before the
response completes.  Concretely, metadata `{ startTime: 3, customField:
"x" }` at dispatch, stamped at time 5 and completed at time 9 in a
development build, ends with no `customField` at all. -/
theorem C3_counterexample :
    optLookup (successHandlerMetadata
      (requestInterceptorFulfilled
        { metadata := some [("startTime", JSValue.num 3),
                            ("customField", JSValue.str "x")] } 5).metadata
      9 true) "customField" = JSValue.undefined ∧
    JSValue.undefined ≠ JSValue.str "x" :=
  ⟨rfl, fun hcon => JSValue.noConfusion hcon⟩

/-- Claim C3 amended: custom metadata fields survive the metrics merge
itself, not the whole dispatch pipeline.  For any metadata record present
on the config at response time (after the request interceptor ran; its
field names are pairwise distinct, its `startTime` is the stamped number,
and it has no field named `duration`), the development-build success
handler produces a record that still maps every custom key (one different
from `startTime` and `duration`) to its original value, maps `startTime`
to the original stamp, and maps `duration` to the computed
`now - startTime`.  Fields present before the request interceptor ran are
not covered: line 35 replaces them (see the counterexample). -/
theorem C3_merge_preserves_custom_fields
    (md : List (String × JSValue)) (now st : Int) (k : String) (v : JSValue)
    (hst : jsLookup md "startTime" = JSValue.num st)
    (hnd : (md.map Prod.fst).Nodup)
    (hdur : hasKey md "duration" = false)
    (hk1 : k ≠ "startTime") (_hk2 : k ≠ "duration")
    (hmem : (k, v) ∈ md) :
    optLookup (successHandlerMetadata (some md) now true) k = v ∧
    optLookup (successHandlerMetadata (some md) now true) "startTime" = JSValue.num st ∧
    optLookup (successHandlerMetadata (some md) now true) "duration" =
      JSValue.num (now - st) := by
  have hsub : ((md.filter (fun p => p.1 ≠ "startTime")).map Prod.fst).Sublist
      (md.map Prod.fst) :=
    (List.filter_sublist md).map Prod.fst
  have hnd2 := hnd.sublist hsub
  have hmem2 : (k, v) ∈ md.filter (fun p => p.1 ≠ "startTime") := by
    rw [List.mem_filter]
    exact ⟨hmem, by simpa using hk1⟩
  have hsh : successHandlerMetadata (some md) now true =
      some (mergeMetrics md (JSValue.num (now - st))) := by
    simp [successHandlerMetadata, computeDuration, hst]
  have hbase : mergeMetrics md (JSValue.num (now - st)) =
      (md.filter (fun p => p.1 ≠ "startTime")).foldl (fun b p => objUpdate b p.1 p.2)
        [("startTime", jsLookup md "startTime"), ("duration", JSValue.num (now - st))] := by
    simp [mergeMetrics, objLit, objUpdate]
  refine ⟨?_, ?_, ?_⟩ <;> rw [hsh] <;> simp only [optLookup] <;> rw [hbase]
  · exact jsLookup_foldl_of_mem _ _ _ _ hnd2 hmem2
  · rw [jsLookup_foldl_of_not_hasKey _ _ _ (hasKey_filter_self md "startTime")]
    simp [jsLookup, hst]
  · rw [jsLookup_foldl_of_not_hasKey _ _ _ (hasKey_filter_of_not md _ _ hdur)]
    simp [jsLookup]

/-- Witness for the amended C3: metadata `{ startTime: 3, customField:
"x" }` present at response time, completed at time 7, keeps the custom
field, the stamp, and records duration 4. -/
theorem C3_merge_preserves_custom_fields_witness :
    jsLookup [("startTime", JSValue.num 3), ("customField", JSValue.str "x")] "startTime" =
      JSValue.num 3 ∧
    (([("startTime", JSValue.num 3), ("customField", JSValue.str "x")].map
        Prod.fst).Nodup ∧
     hasKey [("startTime", JSValue.num 3), ("customField", JSValue.str "x")] "duration" =
      false) ∧
    (optLookup (successHandlerMetadata
        (some [("startTime", JSValue.num 3), ("customField", JSValue.str "x")]) 7 true)
        "customField" = JSValue.str "x" ∧
     optLookup (successHandlerMetadata
        (some [("startTime", JSValue.num 3), ("customField", JSValue.str "x")]) 7 true)
        "startTime" = JSValue.num 3 ∧
     optLookup (successHandlerMetadata
        (some [("startTime", JSValue.num 3), ("customField", JSValue.str "x")]) 7 true)
        "duration" = JSValue.num (7 - 3)) :=
  ⟨rfl, ⟨by simp, rfl⟩,
   C3_merge_preserves_custom_fields
     [("startTime", JSValue.num 3), ("customField", JSValue.str "x")] 7 3
     "customField" (JSValue.str "x") rfl (by simp) rfl (by simp) (by simp)
     (List.mem_cons_of_mem _ (List.mem_cons_self _ _))⟩

/-- Claim C8: `getErrorMessage` applies its priority order on the three
specified shapes: a normalized API error with message "Not found" yields
exactly "Not found"; a raw object `{ response: { data: { message: "X" } } }`
with no discriminator flags yields exactly "X"; the empty object yields
the fixed fallback string. -/
theorem C8_getErrorMessage_priority :
    getErrorMessage (JSValue.obj
      [("isApiError", JSValue.bool true), ("message", JSValue.str "Not found")]) =
      JSValue.str "Not found" ∧
    getErrorMessage (JSValue.obj
      [("response", JSValue.obj [("data", JSValue.obj [("message", JSValue.str "X")])])]) =
      JSValue.str "X" ∧
    getErrorMessage (JSValue.obj []) = JSValue.str "Ha ocurrido un error inesperado" :=
  ⟨rfl, rfl, rfl⟩

/-- Claim C9: for every request stamped by the request interceptor and
completed under a monotone clock (handler time at least the stamp), the
duration computed by the response handlers is `now - startTime` and is
nonnegative; when no metadata was recorded the computed duration is
exactly 0. -/
theorem C9_duration_nonneg (c : RequestConfig) (t now : Int) (h : t ≤ now) :
    computeDuration (requestInterceptorFulfilled c t).metadata now = some (now - t) ∧
    0 ≤ now - t ∧
    computeDuration none now = some 0 :=
  ⟨rfl, sub_nonneg.mpr h, rfl⟩

/-- Witness for C9: stamped at time 1, completed at time 4. -/
theorem C9_duration_nonneg_witness :
    (1 : Int) ≤ 4 ∧
    (computeDuration (requestInterceptorFulfilled { metadata := none } 1).metadata 4 =
      some (4 - 1) ∧
     (0 : Int) ≤ 4 - 1 ∧
     computeDuration none 4 = some 0) :=
  ⟨by decide, C9_duration_nonneg { metadata := none } 1 4 (by decide)⟩

/-- Claim C10: the introspection helpers are total functions of the
embedded value — they are defined on every input, including `null`,
`undefined` and non-object primitives, and never throw (property reads go
through the same optional-chain semantics as the source).  The two
predicates return `false` whenever the corresponding flag is not exactly
the boolean `true`, and `getErrorMessage` still returns the fallback
string on `null` and on `undefined`. -/
theorem C10_helpers_total (e : JSValue) :
    (optChainGet e "isApiError" ≠ JSValue.bool true → isApiError e = false) ∧
    (optChainGet e "isNetworkError" ≠ JSValue.bool true → isNetworkError e = false) ∧
    getErrorMessage JSValue.null = JSValue.str fallbackErrorMessage ∧
    getErrorMessage JSValue.undefined = JSValue.str fallbackErrorMessage := by
  refine ⟨fun h => ?_, fun h => ?_, rfl, rfl⟩
  · cases hb : isApiError e
    · rfl
    · exact absurd ((isApiError_iff e).mp hb) h
  · cases hb : isNetworkError e
    · rfl
    · exact absurd ((isNetworkError_iff e).mp hb) h

/-- Witness for C10 at the primitive number 7 (no flags to read). -/
theorem C10_helpers_total_witness :
    optChainGet (JSValue.num 7) "isApiError" ≠ JSValue.bool true ∧
    optChainGet (JSValue.num 7) "isNetworkError" ≠ JSValue.bool true ∧
    isApiError (JSValue.num 7) = false ∧
    isNetworkError (JSValue.num 7) = false :=
  ⟨fun hcon => JSValue.noConfusion hcon,
   fun hcon => JSValue.noConfusion hcon,
   (C10_helpers_total (JSValue.num 7)).1 (fun hcon => JSValue.noConfusion hcon),
   (C10_helpers_total (JSValue.num 7)).2.1 (fun hcon => JSValue.noConfusion hcon)⟩
